import Mathlib

/-!
# Verification of the Pendulum CLI deploy / teardown orchestration

A shallow embedding of the orchestration code of the Pendulum CLI
(`src/utils/runCommand.ts`, `src/utils/checkAWSConfiguration.ts`, the
`DeployCommand` in `src/commands/deploy.ts`, and the `DestroyCommand`
pipeline `listAllStacks` / `destroyStacks`).

External child processes are modelled by the event they deliver back (a
`close` event carrying an exit code, or an `error` event), interactive
prompts by the final values the user submitted, and AWS SDK responses by
explicit data.  Each embedded function mirrors the control flow of its
source function; every run of a command is a pure function of such an
environment, returning the ordered trace of backend-touching calls it
made, its exit status, and the messages it surfaced.
-/

namespace Pendulum

/-- What the spawned child process delivers back to `runCommand`
(src/utils/runCommand.ts): either a `close` event carrying an exit code
(`none` models the JavaScript `null` delivered when the process was
killed by a signal), or an `error` event carrying an error message. -/
inductive ProcEvent where
  | closed (code : Option Int)
  | errored (msg : String)
deriving DecidableEq, Repr

/-- JavaScript template-literal rendering of the exit code: `null`
prints as "null", a number prints as itself. -/
def exitCodeText : Option Int → String
  | some n => toString n
  | none => "null"

/-- src/utils/runCommand.ts: the returned promise resolves when the
process closes with code 0 (`code === 0 ? resolve() : reject(...)`) and
rejects with `Command failed with exit code ${code}` otherwise; a spawn
`error` event rejects with that error. -/
def runCommand (ev : ProcEvent) : Except String Unit :=
  match ev with
  | .closed c =>
      if c = some 0 then .ok ()
      else .error ("Command failed with exit code " ++ exitCodeText c)
  | .errored msg => .error msg

/-- src/utils/checkAWSConfiguration.ts: runs
`aws sts get-caller-identity`; on failure it throws the remediation
error naming `aws configure`. -/
def checkAWSConfiguration (identity : ProcEvent) : Except String Unit :=
  match runCommand identity with
  | .ok _ => .ok ()
  | .error _ => .error "Run 'aws configure' to set up your AWS credentials"

/-- JavaScript `String.prototype.trim`, modelled on the character list:
drop leading and trailing whitespace. -/
def trimChars (s : List Char) : List Char :=
  ((s.dropWhile Char.isWhitespace).reverse.dropWhile Char.isWhitespace).reverse

/-- JavaScript `String.prototype.trim` (`input.trim()` in the source). -/
def strTrim (s : String) : String := ⟨trimChars s.data⟩

/-- Result of an inquirer `validate` callback: returning `true` accepts
the input, returning a string rejects it and re-prompts with that
message. -/
inductive ValidateResult where
  | accept
  | reject (msg : String)
deriving DecidableEq, Repr

/-- The `validate` callback of the `confirmDestruction` prompt in
`DestroyCommand`:
`if (input.trim() !== "DESTROY") return "You must type 'DESTROY' exactly
to confirm"; else return true;`. -/
def confirmDestructionValidate (input : String) : ValidateResult :=
  if strTrim input ≠ "DESTROY" then
    .reject "You must type 'DESTROY' exactly to confirm"
  else .accept

/-- Externally visible backend-touching calls a command run makes, in
order. -/
inductive Event where
  | identityCheck
  | npmInstall
  | cdkBootstrap
  | provisionBackend (names : List String)
  | provisionFrontend
  | deprovision (stack : String)
deriving DecidableEq, Repr

/-- The calls that provision or deprovision stacks. -/
def Event.isDestructive : Event → Bool
  | .provisionBackend _ => true
  | .provisionFrontend => true
  | .deprovision _ => true
  | _ => false

/-- Process exit status of a command run: `failure` corresponds to
`process.exit(1)`, `success` to the process ending normally. -/
inductive ExitStatus where
  | success
  | failure
deriving DecidableEq, Repr

/-- The five CloudFormation stacks `listAllStacks` returns, in the
order `destroyStacks` iterates over them. -/
def potentialStacks : List String :=
  ["Pendulum-FrontendStack", "Pendulum-ApplicationStack",
   "Pendulum-DatabaseStack", "Pendulum-SecurityStack",
   "Pendulum-NetworkStack"]

/-- The four stacks `deployBackendStacks` passes to `cdk deploy`, in
declaration order. -/
def backendStacks : List String :=
  ["Pendulum-NetworkStack", "Pendulum-SecurityStack",
   "Pendulum-DatabaseStack", "Pendulum-ApplicationStack"]

/-- The full provisioning order of a deploy run: the backend stacks,
then `Pendulum-FrontendStack` deployed by `deployFrontendStack`. -/
def deployOrder : List String := backendStacks ++ ["Pendulum-FrontendStack"]

/-! ## Teardown (`DestroyCommand`, `listAllStacks`, `destroyStacks`) -/

/-- Environment of one `DestroyCommand` run: the prompt answers the user
gave and the event each external command delivers. -/
structure DestroyEnv where
  /-- `aws --version` probe. -/
  awsVersion : ProcEvent
  /-- first yes/no confirmation (`proceed`). -/
  proceed : Bool
  /-- the text typed at the `confirmDestruction` prompt. -/
  confirmDestruction : String
  /-- `aws sts get-caller-identity` inside `checkAWSConfiguration`. -/
  identity : ProcEvent
  /-- `aws sts get-caller-identity` inside `listAllStacks`. -/
  listIdentity : ProcEvent
  /-- `aws cloudformation delete-stack` for a given stack. -/
  deleteStack : String → ProcEvent
  /-- `aws cloudformation wait stack-delete-complete` for a stack. -/
  waitDelete : String → ProcEvent

/-- `listAllStacks`: probes the credentials and returns the fixed list
of potential stacks; a probe failure throws `AWS CLI error: ...`. -/
def listAllStacks (listIdentity : ProcEvent) : Except String (List String) :=
  match runCommand listIdentity with
  | .ok _ => .ok potentialStacks
  | .error e => .error ("AWS CLI error: " ++ e)

/-- Per-stack outcome of a teardown attempt. -/
inductive StackOutcome where
  | destroyed
  | failed (msg : String)
deriving DecidableEq, Repr

/-- The body of the `destroyStacks` loop for one stack: run
`delete-stack`, then the `wait`; the surrounding try/catch turns either
failure into a logged warning (`Couldn't destroy ...`). -/
def destroyStackOutcome (deleteStack waitDelete : String → ProcEvent)
    (s : String) : StackOutcome :=
  match runCommand (deleteStack s) with
  | .error e => .failed e
  | .ok _ =>
      match runCommand (waitDelete s) with
      | .error e => .failed e
      | .ok _ => .destroyed

/-- `destroyStacks`: attempts every stack in list order; a per-stack
failure is caught inside the loop and the loop continues with the next
stack. -/
def destroyStacks (deleteStack waitDelete : String → ProcEvent)
    (names : List String) : List (String × StackOutcome) :=
  names.map fun s => (s, destroyStackOutcome deleteStack waitDelete s)

/-- Observable result of one `DestroyCommand` run. -/
structure DestroyResult where
  /-- ordered backend-touching calls made. -/
  trace : List Event
  /-- process exit status. -/
  exit : ExitStatus
  /-- the per-stack outcomes of the `destroyStacks` loop (empty when the
  loop was never reached). -/
  report : List (String × StackOutcome)
  /-- the error printed by the final catch block, if it ran. -/
  surfacedError : Option String
deriving DecidableEq, Repr

/-- `DestroyCommand` (the CloudFormation-based variant whose teardown
loop is `destroyStacks`): probe `aws --version` (missing CLI is a plain
return), ask the yes/no confirmation, re-check the typed phrase with
`confirmDestruction.trim() !== "DESTROY"`, then inside try:
`checkAWSConfiguration`, `listAllStacks`, `destroyStacks`; the catch
prints the error and calls `process.exit(1)`. -/
def DestroyCommand (env : DestroyEnv) : DestroyResult :=
  match runCommand env.awsVersion with
  | .error _ => ⟨[], .success, [], none⟩
  | .ok _ =>
      if !env.proceed then ⟨[], .success, [], none⟩
      else if strTrim env.confirmDestruction ≠ "DESTROY" then
        ⟨[], .success, [], none⟩
      else
        match checkAWSConfiguration env.identity with
        | .error e => ⟨[.identityCheck], .failure, [], some e⟩
        | .ok _ =>
            match listAllStacks env.listIdentity with
            | .error e => ⟨[.identityCheck, .identityCheck], .failure, [], some e⟩
            | .ok names =>
                ⟨[.identityCheck, .identityCheck]
                    ++ names.map (fun s => .deprovision s),
                 .success,
                 destroyStacks env.deleteStack env.waitDelete names,
                 none⟩

/-! ## Deploy (`DeployCommand` and the post-deploy lookups) -/

/-- One row of CloudFormation `listExports`: a `Name` and an optional
`Value`. -/
structure ExportEntry where
  name : String
  value : Option String
deriving DecidableEq, Repr

/-- A stack description as `describeStacks` returns it: its (possibly
missing) `Outputs` list of `(OutputKey, OutputValue)` pairs. -/
structure StackDesc where
  outputs : Option (List (String × Option String))
deriving DecidableEq, Repr

/-- Environment of one `DeployCommand` run. -/
structure DeployEnv where
  /-- first yes/no confirmation (`proceed`). -/
  proceed : Bool
  /-- second yes/no confirmation (`confirmDeployment`). -/
  confirmDeployment : Bool
  /-- `aws sts get-caller-identity` inside `checkAWSConfiguration`. -/
  identity : ProcEvent
  /-- `npm install` inside `installCDKDependencies`. -/
  npmInstall : ProcEvent
  /-- `npx cdk bootstrap` inside `bootstrapCDK`. -/
  bootstrap : ProcEvent
  /-- `npx cdk deploy` of the four backend stacks. -/
  backendDeploy : ProcEvent
  /-- `npx cdk deploy Pendulum-FrontendStack`. -/
  frontendDeploy : ProcEvent
  /-- CloudFormation `listExports` response (or a thrown error). -/
  listExports : Except String (List ExportEntry)
  /-- SecretsManager `getSecretValue`: the `SecretString` by secret id. -/
  getSecretValue : String → Except String (Option String)
  /-- `JSON.parse` of the secret string, as a key/value list. -/
  parseSecret : String → Except String (List (String × String))
  /-- `describeStacks("Pendulum-ApplicationStack")` response. -/
  appStackDescribe : Except String (List StackDesc)
  /-- `describeStacks("Pendulum-FrontendStack")` response. -/
  frontStackDescribe : Except String (List StackDesc)

/-- `getAdminApiKey`: find the `PendulumAdminApiKeyArn` export, read the
secret, parse it, and take its `admin-key` field; every failure branch
(a thrown AWS error, a missing or falsy export value, a missing
`SecretString`, an unparsable secret, a missing or falsy key) logs and
returns `null`. -/
def getAdminApiKey (exportsResp : Except String (List ExportEntry))
    (getSecretValue : String → Except String (Option String))
    (parseSecret : String → Except String (List (String × String))) :
    Option String :=
  match exportsResp with
  | .error _ => none
  | .ok exps =>
      match exps.find? (fun e => e.name == "PendulumAdminApiKeyArn") with
      | none => none
      | some e =>
          match e.value with
          | none => none
          | some arn =>
              if arn = "" then none
              else
                match getSecretValue arn with
                | .error _ => none
                | .ok none => none
                | .ok (some secretString) =>
                    if secretString = "" then none
                    else
                      match parseSecret secretString with
                      | .error _ => none
                      | .ok data =>
                          match data.find? (fun kv => kv.1 == "admin-key") with
                          | none => none
                          | some kv => if kv.2 = "" then none else some kv.2

/-- Shared shape of `getLoadBalancerURL` / `getCloudFrontURL`: take the
first described stack, find the output with the given key, and return
`OutputValue || null`; a thrown error is caught and yields `null`. -/
def findStackOutput (resp : Except String (List StackDesc))
    (key : String) : Option String :=
  match resp with
  | .error _ => none
  | .ok described =>
      match described.head? with
      | none => none
      | some st =>
          match st.outputs with
          | none => none
          | some outs =>
              match outs.find? (fun o => o.1 == key) with
              | none => none
              | some o =>
                  match o.2 with
                  | none => none
                  | some v => if v = "" then none else some v

/-- `getLoadBalancerURL`: the `LoadBalancerURL` output of
`Pendulum-ApplicationStack`. -/
def getLoadBalancerURL (resp : Except String (List StackDesc)) :
    Option String :=
  findStackOutput resp "LoadBalancerURL"

/-- `getCloudFrontURL`: the `FrontendUrl` output of
`Pendulum-FrontendStack`. -/
def getCloudFrontURL (resp : Except String (List StackDesc)) :
    Option String :=
  findStackOutput resp "FrontendUrl"

/-- Observable result of one `DeployCommand` run. -/
structure DeployResult where
  /-- ordered backend-touching calls made. -/
  trace : List Event
  /-- process exit status. -/
  exit : ExitStatus
  /-- `error.message` printed by the catch block, if it ran. -/
  surfacedError : Option String
  /-- the `spinner.fail` text of the step that threw, if any. -/
  failNote : Option String
  /-- result of `getAdminApiKey` (post-deploy, success path only). -/
  adminKey : Option String
  /-- result of `getLoadBalancerURL`. -/
  loadBalancerURL : Option String
  /-- result of `getCloudFrontURL`. -/
  cloudFrontURL : Option String
deriving DecidableEq, Repr

/-- `DeployCommand`: two confirmations, then inside try:
`checkAWSConfiguration`, `installCDKDependencies`, `bootstrapCDK` (its
own failure is swallowed with `spinner.warn`, so the run continues
either way), `deployBackendStacks` (one `cdk deploy` of the four
backend stacks), `deployFrontendStack`, then the three post-deploy
lookups; the catch prints the error and calls `process.exit(1)`. -/
def DeployCommand (env : DeployEnv) : DeployResult :=
  if !env.proceed then ⟨[], .success, none, none, none, none, none⟩
  else if !env.confirmDeployment then ⟨[], .success, none, none, none, none, none⟩
  else
    match checkAWSConfiguration env.identity with
    | .error e =>
        ⟨[.identityCheck], .failure, some e,
         some "AWS credentials not configured", none, none, none⟩
    | .ok _ =>
        match runCommand env.npmInstall with
        | .error e =>
            ⟨[.identityCheck, .npmInstall], .failure, some e,
             some "Failed to install CDK dependencies", none, none, none⟩
        | .ok _ =>
            match runCommand env.backendDeploy with
            | .error e =>
                ⟨[.identityCheck, .npmInstall, .cdkBootstrap,
                  .provisionBackend backendStacks],
                 .failure, some e,
                 some "Failed to deploy Pendulum backend stacks",
                 none, none, none⟩
            | .ok _ =>
                match runCommand env.frontendDeploy with
                | .error e =>
                    ⟨[.identityCheck, .npmInstall, .cdkBootstrap,
                      .provisionBackend backendStacks, .provisionFrontend],
                     .failure, some e,
                     some "Failed to deploy frontend stack",
                     none, none, none⟩
                | .ok _ =>
                    ⟨[.identityCheck, .npmInstall, .cdkBootstrap,
                      .provisionBackend backendStacks, .provisionFrontend],
                     .success, none, none,
                     getAdminApiKey env.listExports env.getSecretValue
                       env.parseSecret,
                     getLoadBalancerURL env.appStackDescribe,
                     getCloudFrontURL env.frontStackDescribe⟩

/-- The sequence of stack names passed to provisioning, read off a
trace: a backend `cdk deploy` provisions its stack list in order, the
frontend `cdk deploy` provisions `Pendulum-FrontendStack`. -/
def provisionSequence : List Event → List String
  | [] => []
  | .provisionBackend ss :: rest => ss ++ provisionSequence rest
  | .provisionFrontend :: rest =>
      "Pendulum-FrontendStack" :: provisionSequence rest
  | _ :: rest => provisionSequence rest

/-- The sequence of stack names passed to deprovisioning, read off a
trace. -/
def deprovisionSequence : List Event → List String
  | [] => []
  | .deprovision s :: rest => s :: deprovisionSequence rest
  | _ :: rest => deprovisionSequence rest

/-! ## Concrete run environments used as witnesses and counterexamples -/

/-- A teardown run in which both confirmations pass, both credential
probes succeed, and every per-stack `delete-stack` fails with exit
code 1. -/
def destroyEnvAllFail : DestroyEnv where
  awsVersion := .closed (some 0)
  proceed := true
  confirmDestruction := "DESTROY"
  identity := .closed (some 0)
  listIdentity := .closed (some 0)
  deleteStack := fun _ => .closed (some 1)
  waitDelete := fun _ => .closed (some 0)

/-- A teardown run in which everything succeeds. -/
def destroyEnvAllOk : DestroyEnv :=
  { destroyEnvAllFail with deleteStack := fun _ => .closed (some 0) }

/-- A teardown run whose credential check fails (exit code 255). -/
def destroyEnvIdentityFail : DestroyEnv :=
  { destroyEnvAllOk with identity := .closed (some 255) }

/-- A deploy run in which every step succeeds and every lookup response
is empty. -/
def deployEnvAllOk : DeployEnv where
  proceed := true
  confirmDeployment := true
  identity := .closed (some 0)
  npmInstall := .closed (some 0)
  bootstrap := .closed (some 0)
  backendDeploy := .closed (some 0)
  frontendDeploy := .closed (some 0)
  listExports := .ok []
  getSecretValue := fun _ => .ok none
  parseSecret := fun _ => .ok []
  appStackDescribe := .ok []
  frontStackDescribe := .ok []

/-- A deploy run whose backend `cdk deploy` fails with exit code 1. -/
def deployEnvBackendFail : DeployEnv :=
  { deployEnvAllOk with backendDeploy := .closed (some 1) }

/-- A deploy run whose credential check fails (spawn error). -/
def deployEnvIdentityFail : DeployEnv :=
  { deployEnvAllOk with identity := .errored "spawn aws ENOENT" }

/-- Whether a surfaced message contains the name of any stack of the
deploy plan as a substring. -/
def namesAPlanStack (msg : String) : Bool :=
  deployOrder.any fun s => decide (s.data <:+: msg.data)

/-! ## Helper lemmas -/

lemma runCommand_ok_iff (ev : ProcEvent) :
    runCommand ev = .ok () ↔ ev = .closed (some 0) := by
  cases ev with
  | closed c => by_cases h : c = some 0 <;> simp [runCommand, h]
  | errored m => simp [runCommand]

lemma validate_accept_iff (s : String) :
    confirmDestructionValidate s = .accept ↔ strTrim s = "DESTROY" := by
  by_cases h : strTrim s = "DESTROY" <;> simp [confirmDestructionValidate, h]

lemma DestroyCommand_run (env : DestroyEnv)
    (h1 : runCommand env.awsVersion = .ok ())
    (h2 : env.proceed = true)
    (h3 : strTrim env.confirmDestruction = "DESTROY")
    (h4 : runCommand env.identity = .ok ())
    (h5 : runCommand env.listIdentity = .ok ()) :
    DestroyCommand env =
      ⟨[.identityCheck, .identityCheck]
          ++ potentialStacks.map (fun s => .deprovision s),
       .success,
       destroyStacks env.deleteStack env.waitDelete potentialStacks,
       none⟩ := by
  simp [DestroyCommand, h1, h2, h3, h4, h5, checkAWSConfiguration,
        listAllStacks]

lemma destroy_result_cases (env : DestroyEnv) :
    DestroyCommand env = ⟨[], .success, [], none⟩ ∨
    (∃ e, DestroyCommand env = ⟨[.identityCheck], .failure, [], some e⟩) ∨
    (∃ e, DestroyCommand env =
        ⟨[.identityCheck, .identityCheck], .failure, [], some e⟩) ∨
    (env.proceed = true ∧ strTrim env.confirmDestruction = "DESTROY" ∧
      DestroyCommand env =
        ⟨[.identityCheck, .identityCheck]
            ++ potentialStacks.map (fun s => .deprovision s),
         .success,
         destroyStacks env.deleteStack env.waitDelete potentialStacks,
         none⟩) := by
  unfold DestroyCommand
  rcases hv : runCommand env.awsVersion with m | u
  · simp [hv]
  · cases hp : env.proceed with
    | false => simp [hv, hp]
    | true =>
        by_cases hc : strTrim env.confirmDestruction = "DESTROY"
        · rcases hi : runCommand env.identity with m | u
          · simp [hv, hp, hc, checkAWSConfiguration, hi]
          · rcases hl : runCommand env.listIdentity with m | u
            · simp [hv, hp, hc, checkAWSConfiguration, hi, listAllStacks, hl]
            · refine Or.inr (Or.inr (Or.inr ⟨rfl, hc, ?_⟩))
              simp [hv, hp, hc, checkAWSConfiguration, hi, listAllStacks, hl]
        · simp [hv, hp, hc]

/-! ## Claims -/

/-- **C10**: `runCommand` resolves exactly when the spawned process
closes with exit code 0; a close with a non-zero code `n` rejects with
`Command failed with exit code n`; a close with a `null` code rejects
with `Command failed with exit code null`; a spawn error rejects with
that error — so a caller's catch branch fires iff the command did not
succeed. -/
theorem runCommand_resolves_iff_exit_zero :
    (∀ ev : ProcEvent, runCommand ev = .ok () ↔ ev = .closed (some 0)) ∧
    (∀ n : Int, n ≠ 0 →
        runCommand (.closed (some n)) =
          .error ("Command failed with exit code " ++ toString n)) ∧
    (∀ m : String, runCommand (.errored m) = .error m) ∧
    runCommand (.closed none) =
      .error "Command failed with exit code null" := by
  refine ⟨runCommand_ok_iff, ?_, fun m => rfl, rfl⟩
  intro n hn
  simp [runCommand, exitCodeText, hn]

/-- **C10** witness: a close with exit code 1 rejects with the exact
message. -/
theorem runCommand_resolves_iff_exit_zero_witness :
    runCommand (.closed (some 1)) =
      .error "Command failed with exit code 1" :=
  runCommand_resolves_iff_exit_zero.2.1 1 (by decide)

/-- **C6**: the DESTROY phrase gate accepts exactly the inputs whose
JavaScript-trimmed form is the exact case-sensitive phrase `DESTROY`:
`DESTROY` is accepted, `destroy` is rejected with the re-prompt
message, any whitespace-free input other than `DESTROY` (in particular
every differently-cased variant and every proper substring) is
rejected, and the treatment of surrounding whitespace is definite —
it is trimmed, so ` DESTROY ` is accepted. -/
theorem destroy_phrase_gate :
    (∀ s : String,
        confirmDestructionValidate s = .accept ↔ strTrim s = "DESTROY") ∧
    confirmDestructionValidate "DESTROY" = .accept ∧
    confirmDestructionValidate "destroy" =
      .reject "You must type 'DESTROY' exactly to confirm" ∧
    confirmDestructionValidate " DESTROY " = .accept ∧
    (∀ s : String, strTrim s = s → s ≠ "DESTROY" →
        confirmDestructionValidate s ≠ .accept) := by
  refine ⟨validate_accept_iff, by decide, by decide, by decide, ?_⟩
  intro s hfix hne hacc
  rw [validate_accept_iff] at hacc
  exact hne (hfix.symm.trans hacc)

/-- **C6** witness: the differently-cased variant `Destroy` is
rejected. -/
theorem destroy_phrase_gate_witness :
    confirmDestructionValidate "Destroy" ≠ .accept :=
  destroy_phrase_gate.2.2.2.2 "Destroy" (by decide) (by decide)

/-- **C2**: a teardown run that reaches the loop attempts a deprovision
for each of the five declared stacks exactly once, in list order,
whatever the per-stack outcomes are — the `deleteStack` / `waitDelete`
outcomes are arbitrary here, so one stack's failure never prevents the
attempts for the stacks after it. -/
theorem teardown_attempts_every_stack (env : DestroyEnv)
    (h1 : runCommand env.awsVersion = .ok ())
    (h2 : env.proceed = true)
    (h3 : strTrim env.confirmDestruction = "DESTROY")
    (h4 : runCommand env.identity = .ok ())
    (h5 : runCommand env.listIdentity = .ok ()) :
    (DestroyCommand env).report.map Prod.fst = potentialStacks ∧
    deprovisionSequence (DestroyCommand env).trace = potentialStacks ∧
    ∀ s ∈ potentialStacks,
      (DestroyCommand env).trace.count (Event.deprovision s) = 1 := by
  have ht : (DestroyCommand env).trace =
      [.identityCheck, .identityCheck]
        ++ potentialStacks.map (fun s => .deprovision s) := by
    rw [DestroyCommand_run env h1 h2 h3 h4 h5]
  have hr : (DestroyCommand env).report =
      destroyStacks env.deleteStack env.waitDelete potentialStacks := by
    rw [DestroyCommand_run env h1 h2 h3 h4 h5]
  refine ⟨?_, ?_, ?_⟩
  · rw [hr]; rfl
  · rw [ht]; decide
  · intro s hs
    rw [ht]
    fin_cases hs <;> decide

/-- **C2** witness: in the run where every delete fails, all five
stacks are still attempted, in order. -/
theorem teardown_attempts_every_stack_witness :
    (DestroyCommand destroyEnvAllFail).report.map Prod.fst =
      potentialStacks :=
  (teardown_attempts_every_stack destroyEnvAllFail rfl rfl (by decide)
    rfl rfl).1

/-- **C1** counterexample: in a teardown run where both confirmations
pass, both credential probes succeed, and every per-stack delete fails
with exit code 1, every report entry is `Failed` and yet the run exits
with success — the claimed non-zero exit status does not happen. -/
theorem teardown_failure_exit_counterexample :
    (DestroyCommand destroyEnvAllFail).report =
      potentialStacks.map
        (fun s => (s, .failed "Command failed with exit code 1")) ∧
    (DestroyCommand destroyEnvAllFail).exit = .success := by
  decide

/-- **C1** (amended): after attempting every stack the teardown run
reports success via its exit status regardless of per-stack failures;
a failure exit occurs only when a pre-teardown check fails, i.e. before
any stack was attempted (empty report). -/
theorem teardown_reports_success_despite_failures :
    (∀ env : DestroyEnv,
        runCommand env.awsVersion = .ok () → env.proceed = true →
        strTrim env.confirmDestruction = "DESTROY" →
        runCommand env.identity = .ok () →
        runCommand env.listIdentity = .ok () →
        (DestroyCommand env).exit = .success ∧
        (DestroyCommand env).report.map Prod.fst = potentialStacks) ∧
    (∀ env : DestroyEnv, (DestroyCommand env).exit = .failure →
        (DestroyCommand env).report = []) := by
  constructor
  · intro env h1 h2 h3 h4 h5
    rw [DestroyCommand_run env h1 h2 h3 h4 h5]
    exact ⟨rfl, rfl⟩
  · intro env hfail
    rcases destroy_result_cases env with h | ⟨e, h⟩ | ⟨e, h⟩ | ⟨_, _, h⟩ <;>
      simp [h] at hfail ⊢

/-- **C1** witness: the all-success teardown run exits successfully
with all five stacks attempted. -/
theorem teardown_reports_success_despite_failures_witness :
    (DestroyCommand destroyEnvAllOk).exit = .success ∧
    (DestroyCommand destroyEnvAllOk).report.map Prod.fst =
      potentialStacks :=
  teardown_reports_success_despite_failures.1 destroyEnvAllOk rfl rfl
    (by decide) rfl rfl

/-- **C7**: no deprovision call is ever traced unless both the yes/no
acknowledgement and the exact-phrase confirmation passed; and whenever
either gate does not pass, the command returns at once with an empty
trace, an empty report and a success exit — no destructive work. -/
theorem no_deprovision_without_both_confirmations :
    (∀ (env : DestroyEnv) (s : String),
        Event.deprovision s ∈ (DestroyCommand env).trace →
        env.proceed = true ∧
        confirmDestructionValidate env.confirmDestruction = .accept) ∧
    (∀ env : DestroyEnv, env.proceed = false →
        DestroyCommand env = ⟨[], .success, [], none⟩) ∧
    (∀ env : DestroyEnv,
        confirmDestructionValidate env.confirmDestruction ≠ .accept →
        DestroyCommand env = ⟨[], .success, [], none⟩) := by
  refine ⟨?_, ?_, ?_⟩
  · intro env s hmem
    rcases destroy_result_cases env with h | ⟨e, h⟩ | ⟨e, h⟩ | ⟨hp, hc, h⟩ <;>
      rw [h] at hmem
    · simp at hmem
    · simp at hmem
    · simp at hmem
    · exact ⟨hp, (validate_accept_iff _).mpr hc⟩
  · intro env hp
    unfold DestroyCommand
    rcases hv : runCommand env.awsVersion with m | u <;> simp [hv, hp]
  · intro env hacc
    rw [Ne, validate_accept_iff] at hacc
    unfold DestroyCommand
    rcases hv : runCommand env.awsVersion with m | u <;>
      cases hp : env.proceed <;> simp [hv, hp, hacc]

/-- **C7** witness: the all-success run did make deprovision calls, and
indeed both confirmations passed in it. -/
theorem no_deprovision_without_both_confirmations_witness :
    destroyEnvAllOk.proceed = true ∧
    confirmDestructionValidate destroyEnvAllOk.confirmDestruction =
      .accept :=
  no_deprovision_without_both_confirmations.1 destroyEnvAllOk
    "Pendulum-NetworkStack" (by decide)

lemma DeployCommand_run (env : DeployEnv)
    (h1 : env.proceed = true) (h2 : env.confirmDeployment = true)
    (h3 : runCommand env.identity = .ok ())
    (h4 : runCommand env.npmInstall = .ok ())
    (h5 : runCommand env.backendDeploy = .ok ())
    (h6 : runCommand env.frontendDeploy = .ok ()) :
    DeployCommand env =
      ⟨[.identityCheck, .npmInstall, .cdkBootstrap,
        .provisionBackend backendStacks, .provisionFrontend],
       .success, none, none,
       getAdminApiKey env.listExports env.getSecretValue env.parseSecret,
       getLoadBalancerURL env.appStackDescribe,
       getCloudFrontURL env.frontStackDescribe⟩ := by
  simp [DeployCommand, h1, h2, h3, h4, h5, h6, checkAWSConfiguration]

lemma DeployCommand_backendFail (env : DeployEnv) (e : String)
    (h1 : env.proceed = true) (h2 : env.confirmDeployment = true)
    (h3 : runCommand env.identity = .ok ())
    (h4 : runCommand env.npmInstall = .ok ())
    (h5 : runCommand env.backendDeploy = .error e) :
    DeployCommand env =
      ⟨[.identityCheck, .npmInstall, .cdkBootstrap,
        .provisionBackend backendStacks],
       .failure, some e,
       some "Failed to deploy Pendulum backend stacks",
       none, none, none⟩ := by
  simp [DeployCommand, h1, h2, h3, h4, h5, checkAWSConfiguration]

lemma DeployCommand_frontendFail (env : DeployEnv) (e : String)
    (h1 : env.proceed = true) (h2 : env.confirmDeployment = true)
    (h3 : runCommand env.identity = .ok ())
    (h4 : runCommand env.npmInstall = .ok ())
    (h5 : runCommand env.backendDeploy = .ok ())
    (h6 : runCommand env.frontendDeploy = .error e) :
    DeployCommand env =
      ⟨[.identityCheck, .npmInstall, .cdkBootstrap,
        .provisionBackend backendStacks, .provisionFrontend],
       .failure, some e,
       some "Failed to deploy frontend stack",
       none, none, none⟩ := by
  simp [DeployCommand, h1, h2, h3, h4, h5, h6, checkAWSConfiguration]

lemma deploy_result_cases (env : DeployEnv) :
    DeployCommand env = ⟨[], .success, none, none, none, none, none⟩ ∨
    DeployCommand env =
      ⟨[.identityCheck], .failure,
       some "Run 'aws configure' to set up your AWS credentials",
       some "AWS credentials not configured", none, none, none⟩ ∨
    (∃ e, DeployCommand env =
      ⟨[.identityCheck, .npmInstall], .failure, some e,
       some "Failed to install CDK dependencies", none, none, none⟩) ∨
    (∃ e, DeployCommand env =
      ⟨[.identityCheck, .npmInstall, .cdkBootstrap,
        .provisionBackend backendStacks],
       .failure, some e,
       some "Failed to deploy Pendulum backend stacks",
       none, none, none⟩) ∨
    (∃ e, DeployCommand env =
      ⟨[.identityCheck, .npmInstall, .cdkBootstrap,
        .provisionBackend backendStacks, .provisionFrontend],
       .failure, some e,
       some "Failed to deploy frontend stack",
       none, none, none⟩) ∨
    DeployCommand env =
      ⟨[.identityCheck, .npmInstall, .cdkBootstrap,
        .provisionBackend backendStacks, .provisionFrontend],
       .success, none, none,
       getAdminApiKey env.listExports env.getSecretValue env.parseSecret,
       getLoadBalancerURL env.appStackDescribe,
       getCloudFrontURL env.frontStackDescribe⟩ := by
  unfold DeployCommand
  cases hp : env.proceed with
  | false => simp [hp]
  | true =>
      cases hc : env.confirmDeployment with
      | false => simp [hp, hc]
      | true =>
          rcases hi : runCommand env.identity with m | u
          · simp [hp, hc, checkAWSConfiguration, hi]
          · rcases hn : runCommand env.npmInstall with m | u
            · simp [hp, hc, checkAWSConfiguration, hi, hn]
            · rcases hb : runCommand env.backendDeploy with m | u
              · simp [hp, hc, checkAWSConfiguration, hi, hn, hb]
              · rcases hf : runCommand env.frontendDeploy with m | u <;>
                  simp [hp, hc, checkAWSConfiguration, hi, hn, hb, hf]

lemma deploy_trace_cases (env : DeployEnv) :
    (DeployCommand env).trace = [] ∨
    (DeployCommand env).trace = [.identityCheck] ∨
    (DeployCommand env).trace = [.identityCheck, .npmInstall] ∨
    (DeployCommand env).trace =
      [.identityCheck, .npmInstall, .cdkBootstrap,
       .provisionBackend backendStacks] ∨
    (DeployCommand env).trace =
      [.identityCheck, .npmInstall, .cdkBootstrap,
       .provisionBackend backendStacks, .provisionFrontend] := by
  rcases deploy_result_cases env with
      h | h | ⟨e, h⟩ | ⟨e, h⟩ | ⟨e, h⟩ | h <;> rw [h]
  · exact Or.inl rfl
  · exact Or.inr (Or.inl rfl)
  · exact Or.inr (Or.inr (Or.inl rfl))
  · exact Or.inr (Or.inr (Or.inr (Or.inl rfl)))
  · exact Or.inr (Or.inr (Or.inr (Or.inr rfl)))
  · exact Or.inr (Or.inr (Or.inr (Or.inr rfl)))

/-- **C3**: in a deploy run whose provisioning succeeds and a teardown
run that reaches its loop, the sequence of stack names passed to
deprovision is exactly the reverse of the sequence in which deploy
provisions them (Network, Security, Database, Application, then
Frontend). -/
theorem teardown_order_reverses_deploy_order
    (penv : DeployEnv) (denv : DestroyEnv)
    (hp1 : penv.proceed = true) (hp2 : penv.confirmDeployment = true)
    (hp3 : runCommand penv.identity = .ok ())
    (hp4 : runCommand penv.npmInstall = .ok ())
    (hp5 : runCommand penv.backendDeploy = .ok ())
    (hp6 : runCommand penv.frontendDeploy = .ok ())
    (hd1 : runCommand denv.awsVersion = .ok ()) (hd2 : denv.proceed = true)
    (hd3 : strTrim denv.confirmDestruction = "DESTROY")
    (hd4 : runCommand denv.identity = .ok ())
    (hd5 : runCommand denv.listIdentity = .ok ()) :
    provisionSequence (DeployCommand penv).trace = deployOrder ∧
    deprovisionSequence (DestroyCommand denv).trace =
      (provisionSequence (DeployCommand penv).trace).reverse := by
  have hpt : (DeployCommand penv).trace =
      [.identityCheck, .npmInstall, .cdkBootstrap,
       .provisionBackend backendStacks, .provisionFrontend] := by
    rw [DeployCommand_run penv hp1 hp2 hp3 hp4 hp5 hp6]
  have hdt : (DestroyCommand denv).trace =
      [.identityCheck, .identityCheck]
        ++ potentialStacks.map (fun s => .deprovision s) := by
    rw [DestroyCommand_run denv hd1 hd2 hd3 hd4 hd5]
  rw [hpt, hdt]
  exact ⟨by decide, by decide⟩

/-- **C3** witness: the all-success deploy and teardown runs. -/
theorem teardown_order_reverses_deploy_order_witness :
    deprovisionSequence (DestroyCommand destroyEnvAllOk).trace =
      (provisionSequence (DeployCommand deployEnvAllOk).trace).reverse :=
  (teardown_order_reverses_deploy_order deployEnvAllOk destroyEnvAllOk
    rfl rfl rfl rfl rfl rfl rfl rfl (by decide) rfl rfl).2

/-- **C4** counterexample: in the completed all-success deploy run the
frontend stack — the stack whose api-endpoint parameter is only
discoverable after the application stack's provisioning — is provisioned
exactly once and the run ends; it is never provisioned a second time
after the plan completes, so no re-provisioning pass exists. -/
theorem frontend_not_reprovisioned_counterexample :
    (DeployCommand deployEnvAllOk).exit = .success ∧
    provisionSequence (DeployCommand deployEnvAllOk).trace = deployOrder ∧
    (provisionSequence (DeployCommand deployEnvAllOk).trace).count
      "Pendulum-FrontendStack" = 1 := by
  decide

/-- **C4** (amended): deploy never re-provisions any stack — in every
run each stack name occurs at most once in the provisioning sequence,
and in a fully successful run the sequence is exactly the plan order
with the dependent frontend stack provisioned exactly once, last, after
every backend stack (when the backend-produced value is available). -/
theorem each_stack_provisioned_at_most_once :
    (∀ (env : DeployEnv) (s : String),
        (provisionSequence (DeployCommand env).trace).count s ≤ 1) ∧
    (∀ env : DeployEnv,
        env.proceed = true → env.confirmDeployment = true →
        runCommand env.identity = .ok () →
        runCommand env.npmInstall = .ok () →
        runCommand env.backendDeploy = .ok () →
        runCommand env.frontendDeploy = .ok () →
        provisionSequence (DeployCommand env).trace = deployOrder) := by
  constructor
  · intro env s
    rcases deploy_trace_cases env with h | h | h | h | h <;> rw [h] <;>
      exact List.nodup_iff_count_le_one.mp (by decide) s
  · intro env h1 h2 h3 h4 h5 h6
    have ht : (DeployCommand env).trace =
        [.identityCheck, .npmInstall, .cdkBootstrap,
         .provisionBackend backendStacks, .provisionFrontend] := by
      rw [DeployCommand_run env h1 h2 h3 h4 h5 h6]
    rw [ht]
    rfl

/-- **C4** witness: in the all-success run the provisioning sequence is
the plan order. -/
theorem each_stack_provisioned_at_most_once_witness :
    provisionSequence (DeployCommand deployEnvAllOk).trace = deployOrder :=
  each_stack_provisioned_at_most_once.2 deployEnvAllOk rfl rfl rfl rfl
    rfl rfl

/-- **C5** counterexample: in a deploy run whose backend `cdk deploy`
fails with exit code 1, the run does halt with a failure exit, but the
surfaced error text and the failure note name no individual stack of
the plan — the claimed "error names the failing stack" is false. -/
theorem deploy_error_names_no_stack_counterexample :
    (DeployCommand deployEnvBackendFail).exit = .failure ∧
    (DeployCommand deployEnvBackendFail).surfacedError =
      some "Command failed with exit code 1" ∧
    (DeployCommand deployEnvBackendFail).failNote =
      some "Failed to deploy Pendulum backend stacks" ∧
    namesAPlanStack "Command failed with exit code 1" = false ∧
    namesAPlanStack "Failed to deploy Pendulum backend stacks" = false := by
  decide

/-- **C5** (amended): deploy halts on the first provisioning failure —
a backend-phase failure means the frontend stack is never invoked, the
run exits with failure, and the surfaced error is the failing phase's
note together with the command's exit-code message (it does not name
the individual failing stack); a frontend-phase failure likewise exits
with failure carrying its phase note. -/
theorem deploy_halts_on_first_failure :
    (∀ (env : DeployEnv) (e : String),
        env.proceed = true → env.confirmDeployment = true →
        runCommand env.identity = .ok () →
        runCommand env.npmInstall = .ok () →
        runCommand env.backendDeploy = .error e →
        (DeployCommand env).exit = .failure ∧
        (DeployCommand env).surfacedError = some e ∧
        (DeployCommand env).failNote =
          some "Failed to deploy Pendulum backend stacks" ∧
        Event.provisionFrontend ∉ (DeployCommand env).trace) ∧
    (∀ (env : DeployEnv) (e : String),
        env.proceed = true → env.confirmDeployment = true →
        runCommand env.identity = .ok () →
        runCommand env.npmInstall = .ok () →
        runCommand env.backendDeploy = .ok () →
        runCommand env.frontendDeploy = .error e →
        (DeployCommand env).exit = .failure ∧
        (DeployCommand env).surfacedError = some e ∧
        (DeployCommand env).failNote =
          some "Failed to deploy frontend stack") := by
  constructor
  · intro env e h1 h2 h3 h4 h5
    rw [DeployCommand_backendFail env e h1 h2 h3 h4 h5]
    refine ⟨rfl, rfl, rfl, ?_⟩
    simp
  · intro env e h1 h2 h3 h4 h5 h6
    rw [DeployCommand_frontendFail env e h1 h2 h3 h4 h5 h6]
    exact ⟨rfl, rfl, rfl⟩

/-- **C5** witness: the backend-failure run halts with the exact
messages and never invokes the frontend. -/
theorem deploy_halts_on_first_failure_witness :
    (DeployCommand deployEnvBackendFail).exit = .failure ∧
    (DeployCommand deployEnvBackendFail).surfacedError =
      some "Command failed with exit code 1" ∧
    (DeployCommand deployEnvBackendFail).failNote =
      some "Failed to deploy Pendulum backend stacks" ∧
    Event.provisionFrontend ∉ (DeployCommand deployEnvBackendFail).trace :=
  deploy_halts_on_first_failure.1 deployEnvBackendFail
    "Command failed with exit code 1" rfl rfl rfl rfl rfl

/-- **C8**: in every deploy and teardown run, any provision or
deprovision call is preceded by the credential identity check (the
trace then begins with it); and when the identity check fails after the
confirmations, the run makes no further call, exits with failure, and
surfaces the `aws configure` remediation hint. -/
theorem identity_check_before_mutation :
    (∀ (env : DestroyEnv) (ev : Event), ev ∈ (DestroyCommand env).trace →
        ev.isDestructive = true →
        (DestroyCommand env).trace.head? = some .identityCheck) ∧
    (∀ (env : DeployEnv) (ev : Event), ev ∈ (DeployCommand env).trace →
        ev.isDestructive = true →
        (DeployCommand env).trace.head? = some .identityCheck) ∧
    (∀ env : DestroyEnv,
        runCommand env.awsVersion = .ok () → env.proceed = true →
        strTrim env.confirmDestruction = "DESTROY" →
        (∀ u : Unit, runCommand env.identity ≠ .ok u) →
        DestroyCommand env =
          ⟨[.identityCheck], .failure, [],
           some "Run 'aws configure' to set up your AWS credentials"⟩) ∧
    (∀ env : DeployEnv,
        env.proceed = true → env.confirmDeployment = true →
        (∀ u : Unit, runCommand env.identity ≠ .ok u) →
        DeployCommand env =
          ⟨[.identityCheck], .failure,
           some "Run 'aws configure' to set up your AWS credentials",
           some "AWS credentials not configured", none, none, none⟩) := by
  refine ⟨?_, ?_, ?_, ?_⟩
  · intro env ev hmem hdes
    rcases destroy_result_cases env with h | ⟨e, h⟩ | ⟨e, h⟩ | ⟨hp, hc, h⟩ <;>
      rw [h] at hmem ⊢
    · simp at hmem
    · simp at hmem
      rw [hmem] at hdes
      cases hdes
    · rfl
    · rfl
  · intro env ev hmem hdes
    rcases deploy_result_cases env with
        h | h | ⟨e, h⟩ | ⟨e, h⟩ | ⟨e, h⟩ | h <;> rw [h] at hmem ⊢
    · simp at hmem
    · simp at hmem
      rw [hmem] at hdes
      cases hdes
    · rfl
    · rfl
    · rfl
    · rfl
  · intro env h1 h2 h3 h4
    rcases hi : runCommand env.identity with m | u
    · simp [DestroyCommand, h1, h2, h3, checkAWSConfiguration, hi]
    · cases u
      exact absurd hi (h4 ())
  · intro env h1 h2 h3
    rcases hi : runCommand env.identity with m | u
    · simp [DeployCommand, h1, h2, checkAWSConfiguration, hi]
    · cases u
      exact absurd hi (h3 ())

/-- **C8** witness: the teardown run with a failing identity check
aborts with only the identity check traced and the remediation hint. -/
theorem identity_check_before_mutation_witness :
    DestroyCommand destroyEnvIdentityFail =
      ⟨[.identityCheck], .failure, [],
       some "Run 'aws configure' to set up your AWS credentials"⟩ :=
  identity_check_before_mutation.2.2.1 destroyEnvIdentityFail rfl rfl
    (by decide) (fun u => by cases u; intro h; exact Except.noConfusion h)

/-- **C9**: a deploy run whose provisioning phases all succeeded
reports overall success with no surfaced error, whatever the post-deploy
lookups returned; and each lookup turns its failure modes (a thrown AWS
error, a missing export, a missing stack) into an absent value (`none`)
rather than an exception. -/
theorem optional_lookup_failure_nonfatal :
    (∀ env : DeployEnv,
        env.proceed = true → env.confirmDeployment = true →
        runCommand env.identity = .ok () →
        runCommand env.npmInstall = .ok () →
        runCommand env.backendDeploy = .ok () →
        runCommand env.frontendDeploy = .ok () →
        (DeployCommand env).exit = .success ∧
        (DeployCommand env).surfacedError = none) ∧
    (∀ (m : String)
        (gsv : String → Except String (Option String))
        (ps : String → Except String (List (String × String))),
        getAdminApiKey (.error m) gsv ps = none) ∧
    (∀ (gsv : String → Except String (Option String))
        (ps : String → Except String (List (String × String))),
        getAdminApiKey (.ok []) gsv ps = none) ∧
    (∀ m : String, getLoadBalancerURL (.error m) = none) ∧
    (∀ m : String, getCloudFrontURL (.error m) = none) ∧
    getLoadBalancerURL (.ok []) = none ∧
    getCloudFrontURL (.ok []) = none := by
  refine ⟨?_, fun m gsv ps => rfl, fun gsv ps => rfl, fun m => rfl,
    fun m => rfl, rfl, rfl⟩
  intro env h1 h2 h3 h4 h5 h6
  rw [DeployCommand_run env h1 h2 h3 h4 h5 h6]
  exact ⟨rfl, rfl⟩

/-- **C9** witness: the all-success run (whose every lookup response is
empty, so all three lookups return `none`) still exits successfully. -/
theorem optional_lookup_failure_nonfatal_witness :
    (DeployCommand deployEnvAllOk).exit = .success ∧
    (DeployCommand deployEnvAllOk).surfacedError = none :=
  optional_lookup_failure_nonfatal.1 deployEnvAllOk rfl rfl rfl rfl rfl rfl

end Pendulum
